import Mathlib

/-!
# Verification of the TCC SDN controller variants

Shallow embedding of the three Ryu OpenFlow 1.3 controller variants
(`controladorTeste2.py`, `controladorTeste3.py`, `controladorTeste4_5.py`).
Each controller is an L2 learning switch; the first two additionally classify
selected IPv4 flows into output queues on switch 1, port 4.

The embedding models:
  * the per-switch MAC → port learning table (`mac_to_port`, a Python dict of
    dicts) as an association list with Python-dict semantics
    (`setdefault`, item assignment, membership / `.get`);
  * OpenFlow matches and actions as tagged variants mirroring exactly the
    `OFPMatch` / `OFPAction*` constructor calls that appear in the source;
  * each `datapath.send_msg` call as one element of an ordered instruction
    list (`OFPFlowMod` or `OFPPacketOut`);
  * the packet-in handlers as pure functions
    `(table, message) → (table, instructions)`.

Parsing of raw bytes is performed by the external ryu library: the message
carries the result of `pkt.get_protocol(ethernet.ethernet)` (None on a
malformed frame) and `pkt.get_protocol(ipv4.ipv4)` as `Option` fields.
A Python `AttributeError` raised inside a handler propagates to ryu's
event loop, which catches it and continues with the next event; in the
embedding such a path returns the state at the point of the raise together
with the instructions already emitted (none are, on every such path).
-/

/-- OpenFlow / ethernet numeric constants used by the source
(`ether_types.ETH_TYPE_LLDP`). -/
def ETH_TYPE_LLDP : Nat := 0x88cc

/-- `ether_types.ETH_TYPE_IP` (IPv4 ethertype). -/
def ETH_TYPE_IP : Nat := 0x0800

/-- `ofproto.OFPP_FLOOD`. -/
def OFPP_FLOOD : Nat := 0xfffffffb

/-- `ofproto.OFPP_CONTROLLER`. -/
def OFPP_CONTROLLER : Nat := 0xfffffffd

/-- `ofproto.OFP_NO_BUFFER`. -/
def OFP_NO_BUFFER : Nat := 0xffffffff

/-- `ofproto.OFPCML_NO_BUFFER` (max_len sentinel for output-to-controller). -/
def OFPCML_NO_BUFFER : Nat := 0xffff

/-- Result of `pkt.get_protocol(ethernet.ethernet)`: ethertype plus
link-layer source and destination addresses. -/
structure EthHeader where
  ethertype : Nat
  src : String
  dst : String
  deriving DecidableEq, Repr

/-- Result of `pkt.get_protocol(ipv4.ipv4)`: network-layer source and
destination addresses (dotted-quad strings, as ryu exposes them). -/
structure IPv4Header where
  src : String
  dst : String
  deriving DecidableEq, Repr

/-- Parsed view of `packet.Packet(msg.data)`: the ethernet header is `none`
when the raw frame is malformed (ryu stops parsing and `get_protocol`
returns None); the IPv4 header is `none` when no IPv4 payload parsed. -/
structure Pkt where
  eth : Option EthHeader
  ip : Option IPv4Header
  deriving DecidableEq, Repr

/-- The fields of an `EventOFPPacketIn` message the handlers read:
`datapath.id`, `msg.match[..]` for in_port, `msg.buffer_id`, and the parsed
view of `msg.data`. -/
structure PacketInMsg where
  dpid : Nat
  in_port : Nat
  buffer_id : Nat
  data : Pkt
  deriving DecidableEq, Repr

/-- An `OFPMatch` as built at the three call sites of the source:
`OFPMatch()` (match-all), `OFPMatch(in_port=.., eth_dst=..)`, and
`OFPMatch(eth_type=.., ipv4_src=.., ipv4_dst=..)`. -/
inductive OFMatch where
  | matchAll
  | matchL2 (in_port : Nat) (eth_dst : String)
  | matchIP (eth_type : Nat) (ipv4_src ipv4_dst : String)
  deriving DecidableEq, Repr

/-- An OpenFlow action as built in the source: `OFPActionOutput(port)` /
`OFPActionOutput(port, max_len)` and `OFPActionSetQueue(queue_id)`. -/
inductive OFAction where
  | output (port : Nat) (max_len : Option Nat)
  | setQueue (queue_id : Nat)
  deriving DecidableEq, Repr

/-- One `datapath.send_msg(..)` call: either an `OFPFlowMod` (with the
`OFPIT_APPLY_ACTIONS` instruction wrapping `actions`) or an
`OFPPacketOut`. -/
inductive Instr where
  | flowMod (buffer_id priority : Nat) (mtch : OFMatch) (actions : List OFAction)
  | packetOut (buffer_id in_port : Nat) (actions : List OFAction) (data : Option Pkt)
  deriving DecidableEq, Repr

/-- `true` exactly on `Instr.flowMod`. -/
def Instr.isFlowMod : Instr → Bool
  | .flowMod _ _ _ _ => true
  | .packetOut _ _ _ _ => false

/-- `true` exactly on `Instr.packetOut`. -/
def Instr.isPacketOut : Instr → Bool
  | .flowMod _ _ _ _ => false
  | .packetOut _ _ _ _ => true

/-- `true` exactly on `OFAction.setQueue`: an action that tags the packet
with an output queue. -/
def OFAction.isSetQueue : OFAction → Bool
  | .setQueue _ => true
  | .output _ _ => false

/-! ## The learning table

`self.mac_to_port` is a Python dict mapping a switch id (`dpid`) to an inner
dict mapping MAC address to port.  Modelled as insertion-ordered association
lists, matching Python-dict semantics. -/

/-- The inner per-switch dict: MAC address → port. -/
abbrev Scope := List (String × Nat)

/-- The outer dict: switch id → per-switch scope. -/
abbrev MacTable := List (Nat × Scope)

/-- Python `scope[a]` read as an option (also `a in scope` / `scope.get(a)`). -/
def scopeLookup : Scope → String → Option Nat
  | [], _ => none
  | (k, v) :: rest, a => if k = a then some v else scopeLookup rest a

/-- Python `scope[a] = p`: overwrite in place if the key exists, else append
(Python dicts keep insertion order). -/
def scopeInsert : Scope → String → Nat → Scope
  | [], a, p => [(a, p)]
  | (k, v) :: rest, a, p =>
      if k = a then (k, p) :: rest else (k, v) :: scopeInsert rest a p

/-- Python `mac_to_port.get(d)` read as an option. -/
def tableFind : MacTable → Nat → Option Scope
  | [], _ => none
  | (k, s) :: rest, d => if k = d then some s else tableFind rest d

/-- Python `mac_to_port[d] = s`: overwrite in place or append. -/
def tableSetScope : MacTable → Nat → Scope → MacTable
  | [], d, s => [(d, s)]
  | (k, v) :: rest, d, s =>
      if k = d then (k, s) :: rest else (k, v) :: tableSetScope rest d s

/-- `self.mac_to_port.setdefault(dpid, {})`. -/
def tableSetDefault (t : MacTable) (d : Nat) : MacTable :=
  match tableFind t d with
  | some _ => t
  | none => tableSetScope t d []

/-- `self.mac_to_port[dpid][src] = in_port` (the scope exists after the
preceding `setdefault`; absent scopes read as empty, which the handlers
never rely on). -/
def tableRecord (t : MacTable) (d : Nat) (a : String) (p : Nat) : MacTable :=
  tableSetScope t d (scopeInsert ((tableFind t d).getD []) a p)

/-- `self.mac_to_port[dpid][dst]` read as an option
(`dst in self.mac_to_port[dpid]` / `.get(dst, ..)`). -/
def tableLookup (t : MacTable) (d : Nat) (a : String) : Option Nat :=
  (tableFind t d).bind (fun s => scopeLookup s a)

/-! ### Learning-table lemmas -/

theorem scopeLookup_insert (s : Scope) (a b : String) (p : Nat) :
    scopeLookup (scopeInsert s a p) b =
      if b = a then some p else scopeLookup s b := by
  induction s with
  | nil =>
      by_cases h : a = b
      · simp [scopeInsert, scopeLookup, h]
      · simp [scopeInsert, scopeLookup, h, Ne.symm h]
  | cons kv rest ih =>
      obtain ⟨k, v⟩ := kv
      by_cases hk : k = a
      · subst hk
        by_cases hb : k = b
        · subst hb
          simp [scopeInsert, scopeLookup]
        · simp [scopeInsert, scopeLookup, hb, Ne.symm hb]
      · by_cases hb : k = b
        · subst hb
          simp [scopeInsert, scopeLookup, hk]
        · simp [scopeInsert, scopeLookup, hk, hb, ih]

theorem tableFind_setScope (t : MacTable) (d d' : Nat) (s : Scope) :
    tableFind (tableSetScope t d s) d' =
      if d' = d then some s else tableFind t d' := by
  induction t with
  | nil =>
      by_cases h : d = d'
      · simp [tableSetScope, tableFind, h]
      · simp [tableSetScope, tableFind, h, Ne.symm h]
  | cons kv rest ih =>
      obtain ⟨k, v⟩ := kv
      by_cases hk : k = d
      · subst hk
        by_cases hb : k = d'
        · subst hb
          simp [tableSetScope, tableFind]
        · simp [tableSetScope, tableFind, hb, Ne.symm hb]
      · by_cases hb : k = d'
        · subst hb
          simp [tableSetScope, tableFind, hk]
        · simp [tableSetScope, tableFind, hk, hb, ih]

theorem tableLookup_setDefault (t : MacTable) (d d' : Nat) (a : String) :
    tableLookup (tableSetDefault t d) d' a = tableLookup t d' a := by
  unfold tableSetDefault
  cases hf : tableFind t d with
  | some s => rfl
  | none =>
      unfold tableLookup
      rw [tableFind_setScope]
      by_cases h : d' = d
      · subst h; rw [if_pos rfl, hf]; rfl
      · rw [if_neg h]

theorem tableLookup_record (t : MacTable) (d d' : Nat) (a b : String)
    (p : Nat) :
    tableLookup (tableRecord t d a p) d' b =
      if d' = d ∧ b = a then some p else tableLookup t d' b := by
  unfold tableRecord tableLookup
  rw [tableFind_setScope]
  by_cases hd : d' = d
  · subst hd
    rw [if_pos rfl, Option.some_bind, scopeLookup_insert]
    by_cases hb : b = a
    · rw [if_pos hb, if_pos ⟨rfl, hb⟩]
    · rw [if_neg hb, if_neg (fun h => hb h.2)]
      cases hf : tableFind t d' with
      | some s => rfl
      | none => rfl
  · rw [if_neg hd, if_neg (fun h => hd h.1)]

/-! ## Shared handler pieces

`add_flow` and `switch_features_handler` are byte-for-byte identical in the
three controller files, so they are defined once. -/

/-- `add_flow(datapath, priority, match, actions, buffer_id=None)`: builds an
`OFPFlowMod` whose buffer field is `buffer_id or ofproto.OFP_NO_BUFFER` —
Python truthiness, so both `None` and `0` fall back to `OFP_NO_BUFFER`. -/
def add_flow (priority : Nat) (mtch : OFMatch) (actions : List OFAction)
    (buffer_id : Option Nat) : Instr :=
  Instr.flowMod
    (match buffer_id with
     | some b => if b = 0 then OFP_NO_BUFFER else b
     | none => OFP_NO_BUFFER)
    priority mtch actions

/-- `switch_features_handler`: on `EventOFPSwitchFeatures`, install the
priority-0 table-miss rule (match-all, output to controller with
`OFPCML_NO_BUFFER`) via `add_flow(datapath, 0, match, actions)`. -/
def switch_features_handler : List Instr :=
  [add_flow 0 OFMatch.matchAll
    [OFAction.output OFPP_CONTROLLER (some OFPCML_NO_BUFFER)] none]

/-- The `data` argument of the `OFPPacketOut`: `msg.data` when the switch
holds no buffered copy (`msg.buffer_id == OFP_NO_BUFFER`), else `None`. -/
def packetOutData (msg : PacketInMsg) : Option Pkt :=
  if msg.buffer_id = OFP_NO_BUFFER then some msg.data else none

/-! ## controladorTeste2.py — two-tier classification -/

/-- `controladorTeste2.py`, lines 85–104: match/action pair for a `Deliver`
decision.  Base: `OFPMatch(in_port=in_port, eth_dst=dst)` with
`[OFPActionOutput(out_port)]`.  For IPv4 frames, on switch 1 with
out_port 4, flow `10.0.0.1 → 10.0.0.4` is narrowed to the IP 3-tuple match
with `[OFPActionSetQueue(1), OFPActionOutput(out_port)]`, and flow
`10.0.0.3 → 10.0.0.4` likewise with queue 2.  `none` is the path where
`ip.src` is read although `pkt.get_protocol(ipv4.ipv4)` returned None
(IPv4 ethertype, unparseable IPv4 header): the `AttributeError` aborts the
handler before any `send_msg`. -/
def deliverMatchActionsT2 (dpid in_port : Nat) (eth : EthHeader)
    (ipHdr : Option IPv4Header) (out_port : Nat) :
    Option (OFMatch × List OFAction) :=
  let base := (OFMatch.matchL2 in_port eth.dst,
               [OFAction.output out_port none])
  if eth.ethertype = ETH_TYPE_IP then
    if dpid = 1 ∧ out_port = 4 then
      match ipHdr with
      | none => none
      | some ip =>
        if ip.src = "10.0.0.1" ∧ ip.dst = "10.0.0.4" then
          some (OFMatch.matchIP ETH_TYPE_IP ip.src ip.dst,
                [OFAction.setQueue 1, OFAction.output out_port none])
        else if ip.src = "10.0.0.3" ∧ ip.dst = "10.0.0.4" then
          some (OFMatch.matchIP ETH_TYPE_IP ip.src ip.dst,
                [OFAction.setQueue 2, OFAction.output out_port none])
        else some base
    else some base
  else some base

/-- `_packet_in_handler` of `controladorTeste2.py` as a pure function over
`(learning table, message)`.  Returns the updated table and the ordered
list of `send_msg` instructions.  A malformed frame
(`get_protocol(ethernet.ethernet)` is None) raises `AttributeError` at
`eth.ethertype`, before any table access: the event yields the unchanged
table and no instructions (ryu's event loop catches the exception). -/
def packetInT2 (t : MacTable) (msg : PacketInMsg) : MacTable × List Instr :=
  match msg.data.eth with
  | none => (t, [])
  | some eth =>
    if eth.ethertype = ETH_TYPE_LLDP then (t, [])
    else
      let dpid := msg.dpid
      let t1 := tableSetDefault t dpid
      let t2 := tableRecord t1 dpid eth.src msg.in_port
      let out_port := (tableLookup t2 dpid eth.dst).getD OFPP_FLOOD
      if out_port ≠ OFPP_FLOOD then
        match deliverMatchActionsT2 dpid msg.in_port eth msg.data.ip out_port with
        | none => (t2, [])
        | some (mtch, acts) =>
            (t2, [add_flow 1 mtch acts (some msg.buffer_id),
                  Instr.packetOut msg.buffer_id msg.in_port acts
                    (packetOutData msg)])
      else
        (t2, [Instr.packetOut msg.buffer_id msg.in_port
                [OFAction.output out_port none] (packetOutData msg)])

/-! ## controladorTeste3.py — three-tier classification -/

/-- `controladorTeste3.py`, line 90: the HIGH-priority predicate
(`ip.src == '10.0.0.2'`). -/
def highPredT3 (ip : IPv4Header) : Bool :=
  ip.src = "10.0.0.2"

/-- `controladorTeste3.py`, line 107: the LOW-priority predicate
(`ip.src == '10.0.0.1' or ip.src == '10.0.0.3'`). -/
def lowPredT3 (ip : IPv4Header) : Bool :=
  ip.src = "10.0.0.1" || ip.src = "10.0.0.3"

/-- `controladorTeste3.py`, lines 81–122: match/action pair for a `Deliver`
decision.  The classification branch is guarded by
`dpid == 1 and out_port == 4 and eth.ethertype == ETH_TYPE_IP`; inside it
`ip = pkt.get_protocol(ipv4.ipv4)` is read (`none` = `AttributeError`
path, as in the two-tier variant). -/
def deliverMatchActionsT3 (dpid in_port : Nat) (eth : EthHeader)
    (ipHdr : Option IPv4Header) (out_port : Nat) :
    Option (OFMatch × List OFAction) :=
  let base := (OFMatch.matchL2 in_port eth.dst,
               [OFAction.output out_port none])
  if dpid = 1 ∧ out_port = 4 ∧ eth.ethertype = ETH_TYPE_IP then
    match ipHdr with
    | none => none
    | some ip =>
      if highPredT3 ip then
        some (OFMatch.matchIP ETH_TYPE_IP ip.src ip.dst,
              [OFAction.setQueue 1, OFAction.output out_port none])
      else if lowPredT3 ip then
        some (OFMatch.matchIP ETH_TYPE_IP ip.src ip.dst,
              [OFAction.setQueue 2, OFAction.output out_port none])
      else some base
  else some base

/-- `_packet_in_handler` of `controladorTeste3.py` (same skeleton as the
two-tier variant; `mac_to_port[dpid].get(dst, OFPP_FLOOD)` instead of the
`in`-test, observationally identical). -/
def packetInT3 (t : MacTable) (msg : PacketInMsg) : MacTable × List Instr :=
  match msg.data.eth with
  | none => (t, [])
  | some eth =>
    if eth.ethertype = ETH_TYPE_LLDP then (t, [])
    else
      let dpid := msg.dpid
      let t1 := tableSetDefault t dpid
      let t2 := tableRecord t1 dpid eth.src msg.in_port
      let out_port := (tableLookup t2 dpid eth.dst).getD OFPP_FLOOD
      if out_port ≠ OFPP_FLOOD then
        match deliverMatchActionsT3 dpid msg.in_port eth msg.data.ip out_port with
        | none => (t2, [])
        | some (mtch, acts) =>
            (t2, [add_flow 1 mtch acts (some msg.buffer_id),
                  Instr.packetOut msg.buffer_id msg.in_port acts
                    (packetOutData msg)])
      else
        (t2, [Instr.packetOut msg.buffer_id msg.in_port
                [OFAction.output out_port none] (packetOutData msg)])

/-! ## controladorTeste4_5.py — no classification -/

/-- `_packet_in_handler` of `controladorTeste4_5.py`: plain learning switch,
no queue classification. -/
def packetInT45 (t : MacTable) (msg : PacketInMsg) : MacTable × List Instr :=
  match msg.data.eth with
  | none => (t, [])
  | some eth =>
    if eth.ethertype = ETH_TYPE_LLDP then (t, [])
    else
      let dpid := msg.dpid
      let t1 := tableSetDefault t dpid
      let t2 := tableRecord t1 dpid eth.src msg.in_port
      let out_port := (tableLookup t2 dpid eth.dst).getD OFPP_FLOOD
      if out_port ≠ OFPP_FLOOD then
        (t2, [add_flow 1 (OFMatch.matchL2 msg.in_port eth.dst)
                [OFAction.output out_port none] (some msg.buffer_id),
              Instr.packetOut msg.buffer_id msg.in_port
                [OFAction.output out_port none] (packetOutData msg)])
      else
        (t2, [Instr.packetOut msg.buffer_id msg.in_port
                [OFAction.output out_port none] (packetOutData msg)])

/-! ## Event streams -/

/-- The two event kinds ryu delivers to a controller instance. -/
inductive Event where
  | switchReady (dpid : Nat)
  | packetIn (msg : PacketInMsg)
  deriving DecidableEq, Repr

/-- One event processed by the two-tier controller:
`EventOFPSwitchFeatures` runs `switch_features_handler` (no table access),
`EventOFPPacketIn` runs the packet-in handler. -/
def stepT2 (t : MacTable) (e : Event) : MacTable × List Instr :=
  match e with
  | .switchReady _ => (t, switch_features_handler)
  | .packetIn msg => packetInT2 t msg

/-- The learning table after the two-tier controller processes a list of
events in arrival order. -/
def runT2 (t : MacTable) : List Event → MacTable
  | [] => t
  | e :: es => runT2 (stepT2 t e).1 es

/-- One event processed by the three-tier controller. -/
def stepT3 (t : MacTable) (e : Event) : MacTable × List Instr :=
  match e with
  | .switchReady _ => (t, switch_features_handler)
  | .packetIn msg => packetInT3 t msg

/-- The learning table after the three-tier controller processes a list of
events in arrival order. -/
def runT3 (t : MacTable) : List Event → MacTable
  | [] => t
  | e :: es => runT3 (stepT3 t e).1 es

/-- One event processed by the plain (no-classification) controller. -/
def stepT45 (t : MacTable) (e : Event) : MacTable × List Instr :=
  match e with
  | .switchReady _ => (t, switch_features_handler)
  | .packetIn msg => packetInT45 t msg

/-- The learning table after the plain controller processes a list of
events in arrival order. -/
def runT45 (t : MacTable) : List Event → MacTable
  | [] => t
  | e :: es => runT45 (stepT45 t e).1 es

/-- `e` is a packet-in on switch `d` whose frame parsed, is not LLDP, and
carries source address `a` ingressing on port `p` — the only kind of event
that can create or update the learning-table entry `(d, a) → p`. -/
def eventRecords (e : Event) (d : Nat) (a : String) (p : Nat) : Prop :=
  match e with
  | .switchReady _ => False
  | .packetIn msg =>
      msg.dpid = d ∧ msg.in_port = p ∧
        ∃ eth, msg.data.eth = some eth ∧ eth.src = a ∧
          eth.ethertype ≠ ETH_TYPE_LLDP

/-! ## Handler characterization lemmas -/

/-- A non-LLDP packet-in whose destination resolves to port `p ≠ OFPP_FLOOD`
(two-tier variant): the table learns the source, and the instructions are
determined by the classification step. -/
theorem packetInT2_deliver (t : MacTable) (msg : PacketInMsg)
    (eth : EthHeader) (p : Nat)
    (he : msg.data.eth = some eth)
    (hl : eth.ethertype ≠ ETH_TYPE_LLDP)
    (hout : tableLookup
        (tableRecord (tableSetDefault t msg.dpid) msg.dpid eth.src msg.in_port)
        msg.dpid eth.dst = some p)
    (hp : p ≠ OFPP_FLOOD) :
    packetInT2 t msg =
      (tableRecord (tableSetDefault t msg.dpid) msg.dpid eth.src msg.in_port,
       match deliverMatchActionsT2 msg.dpid msg.in_port eth msg.data.ip p with
       | none => []
       | some (m, a) =>
           [add_flow 1 m a (some msg.buffer_id),
            Instr.packetOut msg.buffer_id msg.in_port a (packetOutData msg)]) := by
  unfold packetInT2
  rw [he]
  dsimp only
  rw [if_neg hl]
  simp only [hout, Option.getD_some]
  rw [if_pos hp]
  cases hd : deliverMatchActionsT2 msg.dpid msg.in_port eth msg.data.ip p with
  | none => rfl
  | some ma => obtain ⟨m, a⟩ := ma; rfl

/-- A non-LLDP packet-in whose destination is unknown (two-tier variant):
flood, no rule install. -/
theorem packetInT2_flood (t : MacTable) (msg : PacketInMsg)
    (eth : EthHeader)
    (he : msg.data.eth = some eth)
    (hl : eth.ethertype ≠ ETH_TYPE_LLDP)
    (hout : tableLookup
        (tableRecord (tableSetDefault t msg.dpid) msg.dpid eth.src msg.in_port)
        msg.dpid eth.dst = none) :
    packetInT2 t msg =
      (tableRecord (tableSetDefault t msg.dpid) msg.dpid eth.src msg.in_port,
       [Instr.packetOut msg.buffer_id msg.in_port
          [OFAction.output OFPP_FLOOD none] (packetOutData msg)]) := by
  unfold packetInT2
  rw [he]
  dsimp only
  rw [if_neg hl]
  simp only [hout, Option.getD_none]
  rw [if_neg (fun h => h rfl)]

/-- Deliver characterization for the three-tier variant. -/
theorem packetInT3_deliver (t : MacTable) (msg : PacketInMsg)
    (eth : EthHeader) (p : Nat)
    (he : msg.data.eth = some eth)
    (hl : eth.ethertype ≠ ETH_TYPE_LLDP)
    (hout : tableLookup
        (tableRecord (tableSetDefault t msg.dpid) msg.dpid eth.src msg.in_port)
        msg.dpid eth.dst = some p)
    (hp : p ≠ OFPP_FLOOD) :
    packetInT3 t msg =
      (tableRecord (tableSetDefault t msg.dpid) msg.dpid eth.src msg.in_port,
       match deliverMatchActionsT3 msg.dpid msg.in_port eth msg.data.ip p with
       | none => []
       | some (m, a) =>
           [add_flow 1 m a (some msg.buffer_id),
            Instr.packetOut msg.buffer_id msg.in_port a (packetOutData msg)]) := by
  unfold packetInT3
  rw [he]
  dsimp only
  rw [if_neg hl]
  simp only [hout, Option.getD_some]
  rw [if_pos hp]
  cases hd : deliverMatchActionsT3 msg.dpid msg.in_port eth msg.data.ip p with
  | none => rfl
  | some ma => obtain ⟨m, a⟩ := ma; rfl

/-- Flood characterization for the plain (no-classification) variant. -/
theorem packetInT45_flood (t : MacTable) (msg : PacketInMsg)
    (eth : EthHeader)
    (he : msg.data.eth = some eth)
    (hl : eth.ethertype ≠ ETH_TYPE_LLDP)
    (hout : tableLookup
        (tableRecord (tableSetDefault t msg.dpid) msg.dpid eth.src msg.in_port)
        msg.dpid eth.dst = none) :
    packetInT45 t msg =
      (tableRecord (tableSetDefault t msg.dpid) msg.dpid eth.src msg.in_port,
       [Instr.packetOut msg.buffer_id msg.in_port
          [OFAction.output OFPP_FLOOD none] (packetOutData msg)]) := by
  unfold packetInT45
  rw [he]
  dsimp only
  rw [if_neg hl]
  simp only [hout, Option.getD_none]
  rw [if_neg (fun h => h rfl)]

/-- The two-tier packet-in handler emits one of three instruction lists:
nothing (LLDP / malformed / `AttributeError` path), a lone flood
packet-out, or a priority-1 install followed by a packet-out sharing its
action list. -/
theorem packetInT2_shape (t : MacTable) (msg : PacketInMsg) :
    (packetInT2 t msg).2 = [] ∨
    (packetInT2 t msg).2 =
      [Instr.packetOut msg.buffer_id msg.in_port
        [OFAction.output OFPP_FLOOD none] (packetOutData msg)] ∨
    (∃ m a, (packetInT2 t msg).2 =
      [add_flow 1 m a (some msg.buffer_id),
       Instr.packetOut msg.buffer_id msg.in_port a (packetOutData msg)]) := by
  unfold packetInT2
  cases he : msg.data.eth with
  | none => exact Or.inl rfl
  | some eth =>
    by_cases hl : eth.ethertype = ETH_TYPE_LLDP
    · simp [hl]
    · simp only [if_neg hl]
      split
      · split
        · exact Or.inl rfl
        · rename_i mtch acts heq
          exact Or.inr (Or.inr ⟨mtch, acts, rfl⟩)
      · rename_i hflood
        push_neg at hflood
        rw [hflood]
        exact Or.inr (Or.inl rfl)

/-- The table returned by the two-tier packet-in handler: unchanged on the
LLDP and malformed-frame paths, otherwise the source address is learned. -/
theorem packetInT2_table (t : MacTable) (msg : PacketInMsg) :
    (packetInT2 t msg).1 = t ∨
    (∃ eth, msg.data.eth = some eth ∧ eth.ethertype ≠ ETH_TYPE_LLDP ∧
      (packetInT2 t msg).1 =
        tableRecord (tableSetDefault t msg.dpid) msg.dpid eth.src
          msg.in_port) := by
  unfold packetInT2
  cases he : msg.data.eth with
  | none => exact Or.inl rfl
  | some eth =>
    by_cases hl : eth.ethertype = ETH_TYPE_LLDP
    · simp [hl]
    · simp only [if_neg hl]
      refine Or.inr ⟨eth, rfl, hl, ?_⟩
      split
      · split
        · rfl
        · rfl
      · rfl

/-- The table returned by the three-tier packet-in handler: unchanged on
the LLDP and malformed-frame paths, otherwise the source address is
learned. -/
theorem packetInT3_table (t : MacTable) (msg : PacketInMsg) :
    (packetInT3 t msg).1 = t ∨
    (∃ eth, msg.data.eth = some eth ∧ eth.ethertype ≠ ETH_TYPE_LLDP ∧
      (packetInT3 t msg).1 =
        tableRecord (tableSetDefault t msg.dpid) msg.dpid eth.src
          msg.in_port) := by
  unfold packetInT3
  cases he : msg.data.eth with
  | none => exact Or.inl rfl
  | some eth =>
    by_cases hl : eth.ethertype = ETH_TYPE_LLDP
    · simp [hl]
    · simp only [if_neg hl]
      refine Or.inr ⟨eth, rfl, hl, ?_⟩
      split
      · split
        · rfl
        · rfl
      · rfl

/-- The table returned by the plain packet-in handler: unchanged on the
LLDP and malformed-frame paths, otherwise the source address is
learned. -/
theorem packetInT45_table (t : MacTable) (msg : PacketInMsg) :
    (packetInT45 t msg).1 = t ∨
    (∃ eth, msg.data.eth = some eth ∧ eth.ethertype ≠ ETH_TYPE_LLDP ∧
      (packetInT45 t msg).1 =
        tableRecord (tableSetDefault t msg.dpid) msg.dpid eth.src
          msg.in_port) := by
  unfold packetInT45
  cases he : msg.data.eth with
  | none => exact Or.inl rfl
  | some eth =>
    by_cases hl : eth.ethertype = ETH_TYPE_LLDP
    · simp [hl]
    · simp only [if_neg hl]
      refine Or.inr ⟨eth, rfl, hl, ?_⟩
      split
      · rfl
      · rfl

/-- Two-tier classification, HIGH branch: flow `10.0.0.1 → 10.0.0.4` on
switch 1 towards port 4 gets the IP-narrowed match and queue 1. -/
theorem deliverT2_high (in_port : Nat) (eth : EthHeader) (ip : IPv4Header)
    (htype : eth.ethertype = ETH_TYPE_IP)
    (hs : ip.src = "10.0.0.1") (hd : ip.dst = "10.0.0.4") :
    deliverMatchActionsT2 1 in_port eth (some ip) 4 =
      some (OFMatch.matchIP ETH_TYPE_IP ip.src ip.dst,
            [OFAction.setQueue 1, OFAction.output 4 none]) := by
  unfold deliverMatchActionsT2
  rw [if_pos htype, if_pos ⟨rfl, rfl⟩]
  dsimp only
  rw [if_pos ⟨hs, hd⟩]

/-- Two-tier classification, LOW branch: flow `10.0.0.3 → 10.0.0.4` on
switch 1 towards port 4 gets the IP-narrowed match and queue 2. -/
theorem deliverT2_low (in_port : Nat) (eth : EthHeader) (ip : IPv4Header)
    (htype : eth.ethertype = ETH_TYPE_IP)
    (hs : ip.src = "10.0.0.3") (hd : ip.dst = "10.0.0.4") :
    deliverMatchActionsT2 1 in_port eth (some ip) 4 =
      some (OFMatch.matchIP ETH_TYPE_IP ip.src ip.dst,
            [OFAction.setQueue 2, OFAction.output 4 none]) := by
  unfold deliverMatchActionsT2
  rw [if_pos htype, if_pos ⟨rfl, rfl⟩]
  dsimp only
  rw [if_neg (fun hc : ip.src = "10.0.0.1" ∧ ip.dst = "10.0.0.4" => by
      rw [hs] at hc; exact absurd hc.1 (by decide)),
    if_pos ⟨hs, hd⟩]

/-- Two-tier classification: any IPv4 flow outside the two designated
(switch, port, source, destination) combinations keeps the base L2 match
and plain output action. -/
theorem deliverT2_other (dpid in_port out_port : Nat) (eth : EthHeader)
    (ip : IPv4Header)
    (htype : eth.ethertype = ETH_TYPE_IP)
    (hnot : ¬(dpid = 1 ∧ out_port = 4 ∧
      (ip.src = "10.0.0.1" ∨ ip.src = "10.0.0.3") ∧ ip.dst = "10.0.0.4")) :
    deliverMatchActionsT2 dpid in_port eth (some ip) out_port =
      some (OFMatch.matchL2 in_port eth.dst,
            [OFAction.output out_port none]) := by
  unfold deliverMatchActionsT2
  rw [if_pos htype]
  by_cases h14 : dpid = 1 ∧ out_port = 4
  · rw [if_pos h14]
    dsimp only
    rw [if_neg (fun hc : ip.src = "10.0.0.1" ∧ ip.dst = "10.0.0.4" =>
        hnot ⟨h14.1, h14.2, Or.inl hc.1, hc.2⟩),
      if_neg (fun hc : ip.src = "10.0.0.3" ∧ ip.dst = "10.0.0.4" =>
        hnot ⟨h14.1, h14.2, Or.inr hc.1, hc.2⟩)]
  · rw [if_neg h14]

/-- Three-tier classification, HIGH branch (`ip.src = 10.0.0.2`). -/
theorem deliverT3_high (in_port : Nat) (eth : EthHeader) (ip : IPv4Header)
    (htype : eth.ethertype = ETH_TYPE_IP)
    (hs : highPredT3 ip = true) :
    deliverMatchActionsT3 1 in_port eth (some ip) 4 =
      some (OFMatch.matchIP ETH_TYPE_IP ip.src ip.dst,
            [OFAction.setQueue 1, OFAction.output 4 none]) := by
  unfold deliverMatchActionsT3
  rw [if_pos ⟨rfl, rfl, htype⟩]
  dsimp only
  rw [if_pos hs]

/-- Three-tier classification, LOW branch
(`ip.src = 10.0.0.1 or ip.src = 10.0.0.3`). -/
theorem deliverT3_low (in_port : Nat) (eth : EthHeader) (ip : IPv4Header)
    (htype : eth.ethertype = ETH_TYPE_IP)
    (hs : lowPredT3 ip = true) :
    deliverMatchActionsT3 1 in_port eth (some ip) 4 =
      some (OFMatch.matchIP ETH_TYPE_IP ip.src ip.dst,
            [OFAction.setQueue 2, OFAction.output 4 none]) := by
  unfold deliverMatchActionsT3
  rw [if_pos ⟨rfl, rfl, htype⟩]
  dsimp only
  rw [if_neg (fun hc => ?_), if_pos hs]
  have h1 : ip.src = "10.0.0.2" := by
    simpa [highPredT3] using hc
  have h2 : ip.src = "10.0.0.1" ∨ ip.src = "10.0.0.3" := by
    simpa [lowPredT3] using hs
  rcases h2 with h2 | h2 <;> rw [h1] at h2 <;> exact absurd h2 (by decide)

/-- Three-tier classification: any flow matching neither predicate keeps
the base L2 match and plain output action. -/
theorem deliverT3_other (dpid in_port out_port : Nat) (eth : EthHeader)
    (ipHdr : Option IPv4Header)
    (hnot : ¬(dpid = 1 ∧ out_port = 4 ∧ eth.ethertype = ETH_TYPE_IP ∧
      ∃ ip, ipHdr = some ip ∧ (highPredT3 ip = true ∨ lowPredT3 ip = true))) :
    deliverMatchActionsT3 dpid in_port eth ipHdr out_port =
      some (OFMatch.matchL2 in_port eth.dst,
            [OFAction.output out_port none]) ∨
    (ipHdr = none ∧
      deliverMatchActionsT3 dpid in_port eth ipHdr out_port = none) := by
  unfold deliverMatchActionsT3
  by_cases h14 : dpid = 1 ∧ out_port = 4 ∧ eth.ethertype = ETH_TYPE_IP
  · rw [if_pos h14]
    cases ipHdr with
    | none => exact Or.inr ⟨rfl, rfl⟩
    | some ip =>
        dsimp only
        rw [if_neg (fun hc =>
            hnot ⟨h14.1, h14.2.1, h14.2.2, ip, rfl, Or.inl hc⟩),
          if_neg (fun hc =>
            hnot ⟨h14.1, h14.2.1, h14.2.2, ip, rfl, Or.inr hc⟩)]
        exact Or.inl rfl
  · rw [if_neg h14]
    exact Or.inl rfl

/-! ## Claim theorems -/

/-- C3: a packet-in event carrying a malformed frame (the ethernet header
does not parse, so `pkt.get_protocol(ethernet.ethernet)` is None and
reading `eth.ethertype` raises) is dropped by every controller variant:
the learning table is not mutated, no instruction is emitted, and the
engine continues — processing a subsequent event stream exactly as if the
malformed event had never arrived. -/
theorem malformed_frame_dropped (t : MacTable) (msg : PacketInMsg)
    (h : msg.data.eth = none) :
    packetInT2 t msg = (t, []) ∧ packetInT3 t msg = (t, []) ∧
    packetInT45 t msg = (t, []) ∧
    (∀ evs : List Event,
      runT2 t (Event.packetIn msg :: evs) = runT2 t evs) := by
  have h2 : packetInT2 t msg = (t, []) := by
    unfold packetInT2; rw [h]
  refine ⟨h2, ?_, ?_, ?_⟩
  · unfold packetInT3; rw [h]
  · unfold packetInT45; rw [h]
  · intro evs
    show runT2 (stepT2 t (Event.packetIn msg)).1 evs = runT2 t evs
    have hst : (stepT2 t (Event.packetIn msg)).1 = t := by
      show (packetInT2 t msg).1 = t
      rw [h2]
    rw [hst]

/-- C3 witness: a concrete malformed-frame event on an empty table. -/
theorem malformed_frame_dropped_instance :
    (PacketInMsg.mk 1 1 0 (Pkt.mk none none)).data.eth = none ∧
    packetInT2 [] (PacketInMsg.mk 1 1 0 (Pkt.mk none none)) = ([], []) :=
  ⟨rfl, (malformed_frame_dropped [] (PacketInMsg.mk 1 1 0 (Pkt.mk none none)) rfl).1⟩

/-- C5: an LLDP-tagged frame leaves the learning table of every controller
variant completely unchanged (the handler returns before the
`setdefault`, so not even an empty per-switch scope is created) and emits
zero instructions. -/
theorem lldp_never_mutates_or_emits (t : MacTable) (msg : PacketInMsg)
    (eth : EthHeader) (he : msg.data.eth = some eth)
    (hl : eth.ethertype = ETH_TYPE_LLDP) :
    packetInT2 t msg = (t, []) ∧ packetInT3 t msg = (t, []) ∧
    packetInT45 t msg = (t, []) := by
  refine ⟨?_, ?_, ?_⟩
  · unfold packetInT2; rw [he]; dsimp only; rw [if_pos hl]
  · unfold packetInT3; rw [he]; dsimp only; rw [if_pos hl]
  · unfold packetInT45; rw [he]; dsimp only; rw [if_pos hl]

/-- C5 witness: a concrete LLDP frame on a nonempty table. -/
theorem lldp_never_mutates_or_emits_instance :
    (Pkt.mk (some (EthHeader.mk 0x88cc "00:01" "00:02")) none).eth =
      some (EthHeader.mk 0x88cc "00:01" "00:02") ∧
    packetInT2 [(7, [("00:09", 9)])]
      (PacketInMsg.mk 7 1 0 (Pkt.mk (some (EthHeader.mk 0x88cc "00:01" "00:02")) none)) =
      ([(7, [("00:09", 9)])], []) :=
  ⟨rfl,
   (lldp_never_mutates_or_emits [(7, [("00:09", 9)])]
      (PacketInMsg.mk 7 1 0 (Pkt.mk (some (EthHeader.mk 0x88cc "00:01" "00:02")) none))
      (EthHeader.mk 0x88cc "00:01" "00:02") rfl rfl).1⟩

/-- C10: `add_flow` guards the buffer reference with Python truthiness
(`buffer_id or ofproto.OFP_NO_BUFFER`), so a call with buffer reference 0
emits a rule-install carrying `OFP_NO_BUFFER` instead of the valid buffer
id 0 — the two values differ, so the buffer id 0 is silently dropped. -/
theorem add_flow_buffer_zero_truthiness (priority : Nat) (mtch : OFMatch)
    (actions : List OFAction) :
    add_flow priority mtch actions (some 0) =
      Instr.flowMod OFP_NO_BUFFER priority mtch actions ∧
    (OFP_NO_BUFFER : Nat) ≠ 0 :=
  ⟨rfl, by decide⟩

/-- C2 counterexample: a fresh switch (switch 1 has no scope at all in the
empty table) receives a packet-in whose destination `"00:aa"` was never
recorded — yet, because the handler records the frame's source (equal to
the destination here) before resolving the destination, the decision is
Deliver to port 2: a forwarding rule is installed and the packet-out
outputs to port 2, not to `OFPP_FLOOD`. -/
theorem flood_until_known_self_addressed :
    tableFind ([] : MacTable) 1 = none ∧
    (packetInT2 []
      (PacketInMsg.mk 1 2 OFP_NO_BUFFER
        (Pkt.mk (some (EthHeader.mk 0x0806 "00:aa" "00:aa")) none))).2 =
      [Instr.flowMod OFP_NO_BUFFER 1 (OFMatch.matchL2 2 "00:aa")
         [OFAction.output 2 none],
       Instr.packetOut OFP_NO_BUFFER 2 [OFAction.output 2 none]
         (some (Pkt.mk (some (EthHeader.mk 0x0806 "00:aa" "00:aa")) none))] :=
  ⟨rfl, by decide⟩

/-- C2 (amended): for a fresh switch (no addresses recorded for that
switch id), a packet-in carrying a parseable non-LLDP frame whose
destination differs from its own source yields a Flood decision in both
controller variants the claim cites: the only instruction is a packet-out
whose action outputs to `OFPP_FLOOD`, and no rule is installed. -/
theorem flood_until_known_amended (t : MacTable) (msg : PacketInMsg)
    (eth : EthHeader)
    (he : msg.data.eth = some eth)
    (hl : eth.ethertype ≠ ETH_TYPE_LLDP)
    (hfresh : ∀ a, tableLookup t msg.dpid a = none)
    (hds : eth.dst ≠ eth.src) :
    (packetInT2 t msg).2 =
      [Instr.packetOut msg.buffer_id msg.in_port
        [OFAction.output OFPP_FLOOD none] (packetOutData msg)] ∧
    (packetInT45 t msg).2 =
      [Instr.packetOut msg.buffer_id msg.in_port
        [OFAction.output OFPP_FLOOD none] (packetOutData msg)] := by
  have hlook : tableLookup
      (tableRecord (tableSetDefault t msg.dpid) msg.dpid eth.src msg.in_port)
      msg.dpid eth.dst = none := by
    rw [tableLookup_record, if_neg (fun hc => hds hc.2),
      tableLookup_setDefault]
    exact hfresh eth.dst
  constructor
  · rw [packetInT2_flood t msg eth he hl hlook]
  · rw [packetInT45_flood t msg eth he hl hlook]

/-- C2 witness: a concrete fresh-switch event with distinct source and
destination floods. -/
theorem flood_until_known_amended_instance :
    ("00:bb" : String) ≠ "00:aa" ∧
    (packetInT2 []
      (PacketInMsg.mk 3 7 OFP_NO_BUFFER
        (Pkt.mk (some (EthHeader.mk 0x0806 "00:aa" "00:bb")) none))).2 =
      [Instr.packetOut OFP_NO_BUFFER 7 [OFAction.output OFPP_FLOOD none]
        (some (Pkt.mk (some (EthHeader.mk 0x0806 "00:aa" "00:bb")) none))] :=
  ⟨by decide,
   (flood_until_known_amended []
      (PacketInMsg.mk 3 7 OFP_NO_BUFFER
        (Pkt.mk (some (EthHeader.mk 0x0806 "00:aa" "00:bb")) none))
      (EthHeader.mk 0x0806 "00:aa" "00:bb") rfl (by decide)
      (fun a => rfl) (by decide)).1⟩

/-- C4: the switch-ready handler emits exactly one rule-install: match-all,
a single output-to-controller action, priority 0; and every rule the
two-tier packet-in handler installs has priority 1, strictly above it. -/
theorem tableMiss_rule_and_install_priority (t : MacTable)
    (msg : PacketInMsg) (b pr : Nat) (m : OFMatch) (a : List OFAction)
    (h : Instr.flowMod b pr m a ∈ (packetInT2 t msg).2) :
    pr = 1 ∧
    switch_features_handler =
      [Instr.flowMod OFP_NO_BUFFER 0 OFMatch.matchAll
         [OFAction.output OFPP_CONTROLLER (some OFPCML_NO_BUFFER)]] := by
  refine ⟨?_, rfl⟩
  rcases packetInT2_shape t msg with hs | hs | ⟨m', a', hs⟩
  · rw [hs] at h; exact absurd h (List.not_mem_nil _)
  · rw [hs] at h
    rcases List.mem_singleton.mp h with h
    exact Instr.noConfusion h
  · rw [hs] at h
    rcases List.mem_cons.mp h with h | h
    · unfold add_flow at h
      injection h with h1 h2 h3 h4
    · rcases List.mem_singleton.mp h with h
      exact Instr.noConfusion h

/-- C4 witness: a concrete delivering packet-in whose installed rule has
priority 1. -/
theorem tableMiss_rule_and_install_priority_instance :
    Instr.flowMod OFP_NO_BUFFER 1 (OFMatch.matchL2 2 "00:bb")
        [OFAction.output 3 none] ∈
      (packetInT2 [(1, [("00:bb", 3)])]
        (PacketInMsg.mk 1 2 OFP_NO_BUFFER
          (Pkt.mk (some (EthHeader.mk 0x0806 "00:aa" "00:bb")) none))).2 ∧
    (1 : Nat) = 1 ∧
    switch_features_handler =
      [Instr.flowMod OFP_NO_BUFFER 0 OFMatch.matchAll
         [OFAction.output OFPP_CONTROLLER (some OFPCML_NO_BUFFER)]] :=
  ⟨by decide,
   tableMiss_rule_and_install_priority [(1, [("00:bb", 3)])]
     (PacketInMsg.mk 1 2 OFP_NO_BUFFER
       (Pkt.mk (some (EthHeader.mk 0x0806 "00:aa" "00:bb")) none))
     OFP_NO_BUFFER 1 (OFMatch.matchL2 2 "00:bb") [OFAction.output 3 none]
     (by decide)⟩

/-- C1: two-tier controller, for a packet-in whose decision is Deliver
(the destination resolves to port `p` after learning the source, with
`p ≠ OFPP_FLOOD`) carrying an IPv4 frame with a parsed IPv4 header:
on switch 1 towards port 4, flow `10.0.0.1 → 10.0.0.4` gets a rule and
packet-out whose actions set queue 1 (HIGH) before the output;
flow `10.0.0.3 → 10.0.0.4` gets queue 2 (LOW); and every other
combination of source, destination, switch, and output port gets the base
rule and packet-out with no queue-setting action. -/
theorem twoTier_classification_exclusive (t : MacTable)
    (msg : PacketInMsg) (eth : EthHeader) (ip : IPv4Header) (p : Nat)
    (he : msg.data.eth = some eth)
    (htype : eth.ethertype = ETH_TYPE_IP)
    (hip : msg.data.ip = some ip)
    (hout : tableLookup
        (tableRecord (tableSetDefault t msg.dpid) msg.dpid eth.src msg.in_port)
        msg.dpid eth.dst = some p)
    (hp : p ≠ OFPP_FLOOD) :
    (msg.dpid = 1 → p = 4 → ip.src = "10.0.0.1" → ip.dst = "10.0.0.4" →
      (packetInT2 t msg).2 =
        [add_flow 1 (OFMatch.matchIP ETH_TYPE_IP ip.src ip.dst)
           [OFAction.setQueue 1, OFAction.output 4 none] (some msg.buffer_id),
         Instr.packetOut msg.buffer_id msg.in_port
           [OFAction.setQueue 1, OFAction.output 4 none]
           (packetOutData msg)]) ∧
    (msg.dpid = 1 → p = 4 → ip.src = "10.0.0.3" → ip.dst = "10.0.0.4" →
      (packetInT2 t msg).2 =
        [add_flow 1 (OFMatch.matchIP ETH_TYPE_IP ip.src ip.dst)
           [OFAction.setQueue 2, OFAction.output 4 none] (some msg.buffer_id),
         Instr.packetOut msg.buffer_id msg.in_port
           [OFAction.setQueue 2, OFAction.output 4 none]
           (packetOutData msg)]) ∧
    (¬(msg.dpid = 1 ∧ p = 4 ∧
        (ip.src = "10.0.0.1" ∨ ip.src = "10.0.0.3") ∧ ip.dst = "10.0.0.4") →
      (packetInT2 t msg).2 =
        [add_flow 1 (OFMatch.matchL2 msg.in_port eth.dst)
           [OFAction.output p none] (some msg.buffer_id),
         Instr.packetOut msg.buffer_id msg.in_port
           [OFAction.output p none] (packetOutData msg)]) := by
  have hl : eth.ethertype ≠ ETH_TYPE_LLDP := by rw [htype]; decide
  have hmain := packetInT2_deliver t msg eth p he hl hout hp
  rw [hip] at hmain
  refine ⟨?_, ?_, ?_⟩
  · intro hd hp4 hs hdst
    rw [hd, hp4] at hmain
    rw [deliverT2_high msg.in_port eth ip htype hs hdst] at hmain
    rw [hmain]
  · intro hd hp4 hs hdst
    rw [hd, hp4] at hmain
    rw [deliverT2_low msg.in_port eth ip htype hs hdst] at hmain
    rw [hmain]
  · intro hnot
    rw [deliverT2_other msg.dpid msg.in_port p eth ip htype hnot] at hmain
    rw [hmain]

/-- C1 witness: concrete flow `10.0.0.1 → 10.0.0.4` on switch 1 towards
port 4 gets queue 1. -/
theorem twoTier_classification_exclusive_instance :
    tableLookup
      (tableRecord (tableSetDefault [(1, [("00:04", 4)])] 1) 1 "00:01" 2)
      1 "00:04" = some 4 ∧
    (packetInT2 [(1, [("00:04", 4)])]
      (PacketInMsg.mk 1 2 OFP_NO_BUFFER
        (Pkt.mk (some (EthHeader.mk ETH_TYPE_IP "00:01" "00:04"))
          (some (IPv4Header.mk "10.0.0.1" "10.0.0.4"))))).2 =
      [add_flow 1 (OFMatch.matchIP ETH_TYPE_IP "10.0.0.1" "10.0.0.4")
         [OFAction.setQueue 1, OFAction.output 4 none] (some OFP_NO_BUFFER),
       Instr.packetOut OFP_NO_BUFFER 2
         [OFAction.setQueue 1, OFAction.output 4 none]
         (some (Pkt.mk (some (EthHeader.mk ETH_TYPE_IP "00:01" "00:04"))
           (some (IPv4Header.mk "10.0.0.1" "10.0.0.4"))))] :=
  ⟨by decide,
   (twoTier_classification_exclusive [(1, [("00:04", 4)])]
      (PacketInMsg.mk 1 2 OFP_NO_BUFFER
        (Pkt.mk (some (EthHeader.mk ETH_TYPE_IP "00:01" "00:04"))
          (some (IPv4Header.mk "10.0.0.1" "10.0.0.4"))))
      (EthHeader.mk ETH_TYPE_IP "00:01" "00:04")
      (IPv4Header.mk "10.0.0.1" "10.0.0.4") 4
      rfl rfl rfl (by decide) (by decide)).1 rfl rfl rfl rfl⟩

/-- C6: whenever a two-tier classification rule matches a delivering
packet-in, the installed rule's match is narrowed to exactly
`(etherType=IPv4, ipv4_src, ipv4_dst)` — no in_port or destination-MAC
field — and both the install and the packet-out carry the action list
`[SetQueue q, Output port]`, the queue-setting action immediately before
the output. -/
theorem classified_rule_narrowed_and_ordered (t : MacTable)
    (msg : PacketInMsg) (eth : EthHeader) (ip : IPv4Header) (p : Nat)
    (he : msg.data.eth = some eth)
    (htype : eth.ethertype = ETH_TYPE_IP)
    (hip : msg.data.ip = some ip)
    (hout : tableLookup
        (tableRecord (tableSetDefault t msg.dpid) msg.dpid eth.src msg.in_port)
        msg.dpid eth.dst = some p)
    (hp : p ≠ OFPP_FLOOD)
    (hd : msg.dpid = 1) (hp4 : p = 4)
    (hcls : (ip.src = "10.0.0.1" ∨ ip.src = "10.0.0.3") ∧
      ip.dst = "10.0.0.4") :
    ∃ q, (packetInT2 t msg).2 =
      [add_flow 1 (OFMatch.matchIP ETH_TYPE_IP ip.src ip.dst)
         [OFAction.setQueue q, OFAction.output 4 none] (some msg.buffer_id),
       Instr.packetOut msg.buffer_id msg.in_port
         [OFAction.setQueue q, OFAction.output 4 none]
         (packetOutData msg)] := by
  have hl : eth.ethertype ≠ ETH_TYPE_LLDP := by rw [htype]; decide
  have hmain := packetInT2_deliver t msg eth p he hl hout hp
  rw [hip, hd, hp4] at hmain
  rcases hcls with ⟨hs | hs, hdst⟩
  · refine ⟨1, ?_⟩
    rw [deliverT2_high msg.in_port eth ip htype hs hdst] at hmain
    rw [hmain]
  · refine ⟨2, ?_⟩
    rw [deliverT2_low msg.in_port eth ip htype hs hdst] at hmain
    rw [hmain]

/-- C6 witness: the concrete LOW flow `10.0.0.3 → 10.0.0.4`. -/
theorem classified_rule_narrowed_and_ordered_instance :
    tableLookup
      (tableRecord (tableSetDefault [(1, [("00:04", 4)])] 1) 1 "00:03" 2)
      1 "00:04" = some 4 ∧
    (∃ q, (packetInT2 [(1, [("00:04", 4)])]
      (PacketInMsg.mk 1 2 OFP_NO_BUFFER
        (Pkt.mk (some (EthHeader.mk ETH_TYPE_IP "00:03" "00:04"))
          (some (IPv4Header.mk "10.0.0.3" "10.0.0.4"))))).2 =
      [add_flow 1 (OFMatch.matchIP ETH_TYPE_IP "10.0.0.3" "10.0.0.4")
         [OFAction.setQueue q, OFAction.output 4 none] (some OFP_NO_BUFFER),
       Instr.packetOut OFP_NO_BUFFER 2
         [OFAction.setQueue q, OFAction.output 4 none]
         (some (Pkt.mk (some (EthHeader.mk ETH_TYPE_IP "00:03" "00:04"))
           (some (IPv4Header.mk "10.0.0.3" "10.0.0.4"))))]) :=
  ⟨by decide,
   classified_rule_narrowed_and_ordered [(1, [("00:04", 4)])]
     (PacketInMsg.mk 1 2 OFP_NO_BUFFER
       (Pkt.mk (some (EthHeader.mk ETH_TYPE_IP "00:03" "00:04"))
         (some (IPv4Header.mk "10.0.0.3" "10.0.0.4"))))
     (EthHeader.mk ETH_TYPE_IP "00:03" "00:04")
     (IPv4Header.mk "10.0.0.3" "10.0.0.4") 4
     rfl rfl rfl (by decide) (by decide) rfl rfl ⟨Or.inr rfl, rfl⟩⟩

/-- C7: in the instruction list the two-tier packet-in handler returns,
every rule-install occurs at or before every packet-send; in particular,
for a Deliver decision the install precedes the send for that event.
(Stated over positional indices via `List.get?`.) -/
theorem install_at_or_before_send (t : MacTable) (msg : PacketInMsg)
    (i j : Nat) (fm po : Instr)
    (hfm : (packetInT2 t msg).2.get? i = some fm)
    (hfmK : fm.isFlowMod = true)
    (hpo : (packetInT2 t msg).2.get? j = some po)
    (hpoK : po.isPacketOut = true) :
    i ≤ j := by
  rcases packetInT2_shape t msg with hs | hs | ⟨m, a, hs⟩
  · rw [hs] at hfm
    exact absurd hfm (by simp)
  · cases i with
    | zero => exact Nat.zero_le j
    | succ i =>
        rw [hs] at hfm
        simp at hfm
  · cases i with
    | zero => exact Nat.zero_le j
    | succ i =>
        cases i with
        | zero =>
            rw [hs] at hfm
            simp only [List.get?_cons_succ, List.get?_cons_zero,
              Option.some.injEq] at hfm
            rw [← hfm] at hfmK
            simp [Instr.isFlowMod] at hfmK
        | succ i =>
            rw [hs] at hfm
            simp at hfm

/-- C7 witness: in a concrete delivering event, the install sits at index 0
and the send at index 1. -/
theorem install_at_or_before_send_instance :
    ((packetInT2 [(1, [("00:bb", 3)])]
      (PacketInMsg.mk 1 2 OFP_NO_BUFFER
        (Pkt.mk (some (EthHeader.mk 0x0806 "00:aa" "00:bb")) none))).2.get? 0 =
      some (Instr.flowMod OFP_NO_BUFFER 1 (OFMatch.matchL2 2 "00:bb")
        [OFAction.output 3 none])) ∧
    (0 : Nat) ≤ 1 :=
  ⟨by decide,
   install_at_or_before_send [(1, [("00:bb", 3)])]
     (PacketInMsg.mk 1 2 OFP_NO_BUFFER
       (Pkt.mk (some (EthHeader.mk 0x0806 "00:aa" "00:bb")) none))
     0 1
     (Instr.flowMod OFP_NO_BUFFER 1 (OFMatch.matchL2 2 "00:bb")
       [OFAction.output 3 none])
     (Instr.packetOut OFP_NO_BUFFER 2 [OFAction.output 3 none]
       (some (Pkt.mk (some (EthHeader.mk 0x0806 "00:aa" "00:bb")) none)))
     (by decide) (by decide) (by decide) (by decide)⟩

/-- C8: three-tier controller, for a delivering IPv4 packet-in on switch 1
towards port 4: source `10.0.0.2` gets queue 1 (HIGH); sources `10.0.0.1`
and `10.0.0.3` get queue 2 (LOW); any flow matching neither predicate
receives no queue tag; and the HIGH and LOW predicates are mutually
exclusive — no packet satisfies both. -/
theorem threeTier_classification_exclusive (t : MacTable)
    (msg : PacketInMsg) (eth : EthHeader) (ip : IPv4Header) (p : Nat)
    (he : msg.data.eth = some eth)
    (htype : eth.ethertype = ETH_TYPE_IP)
    (hip : msg.data.ip = some ip)
    (hout : tableLookup
        (tableRecord (tableSetDefault t msg.dpid) msg.dpid eth.src msg.in_port)
        msg.dpid eth.dst = some p)
    (hp : p ≠ OFPP_FLOOD) :
    (msg.dpid = 1 → p = 4 → ip.src = "10.0.0.2" →
      (packetInT3 t msg).2 =
        [add_flow 1 (OFMatch.matchIP ETH_TYPE_IP ip.src ip.dst)
           [OFAction.setQueue 1, OFAction.output 4 none] (some msg.buffer_id),
         Instr.packetOut msg.buffer_id msg.in_port
           [OFAction.setQueue 1, OFAction.output 4 none]
           (packetOutData msg)]) ∧
    (msg.dpid = 1 → p = 4 →
      (ip.src = "10.0.0.1" ∨ ip.src = "10.0.0.3") →
      (packetInT3 t msg).2 =
        [add_flow 1 (OFMatch.matchIP ETH_TYPE_IP ip.src ip.dst)
           [OFAction.setQueue 2, OFAction.output 4 none] (some msg.buffer_id),
         Instr.packetOut msg.buffer_id msg.in_port
           [OFAction.setQueue 2, OFAction.output 4 none]
           (packetOutData msg)]) ∧
    (¬(msg.dpid = 1 ∧ p = 4 ∧
        (highPredT3 ip = true ∨ lowPredT3 ip = true)) →
      (packetInT3 t msg).2 =
        [add_flow 1 (OFMatch.matchL2 msg.in_port eth.dst)
           [OFAction.output p none] (some msg.buffer_id),
         Instr.packetOut msg.buffer_id msg.in_port
           [OFAction.output p none] (packetOutData msg)]) ∧
    (∀ ip' : IPv4Header,
      ¬(highPredT3 ip' = true ∧ lowPredT3 ip' = true)) := by
  have hl : eth.ethertype ≠ ETH_TYPE_LLDP := by rw [htype]; decide
  have hmain := packetInT3_deliver t msg eth p he hl hout hp
  rw [hip] at hmain
  refine ⟨?_, ?_, ?_, ?_⟩
  · intro hd hp4 hs
    rw [hd, hp4] at hmain
    rw [deliverT3_high msg.in_port eth ip htype
      (by simp [highPredT3, hs])] at hmain
    rw [hmain]
  · intro hd hp4 hs
    rw [hd, hp4] at hmain
    rw [deliverT3_low msg.in_port eth ip htype
      (by rcases hs with hs | hs <;> simp [lowPredT3, hs])] at hmain
    rw [hmain]
  · intro hnot
    have hnot' : ¬(msg.dpid = 1 ∧ p = 4 ∧ eth.ethertype = ETH_TYPE_IP ∧
        ∃ ip', (some ip : Option IPv4Header) = some ip' ∧
          (highPredT3 ip' = true ∨ lowPredT3 ip' = true)) := by
      rintro ⟨h1, h2, _, ip', hip', hpred⟩
      exact hnot ⟨h1, h2, by rw [Option.some.inj hip']; exact hpred⟩
    rcases deliverT3_other msg.dpid msg.in_port p eth (some ip) hnot'
      with hdel | ⟨hcon, _⟩
    · rw [hdel] at hmain
      rw [hmain]
    · exact absurd hcon (by simp)
  · rintro ip' ⟨hh, hlw⟩
    have h1 : ip'.src = "10.0.0.2" := by simpa [highPredT3] using hh
    have h2 : ip'.src = "10.0.0.1" ∨ ip'.src = "10.0.0.3" := by
      simpa [lowPredT3] using hlw
    rcases h2 with h2 | h2 <;> rw [h1] at h2 <;> exact absurd h2 (by decide)

/-- C8 witness: concrete HIGH flow `10.0.0.2 → 10.0.0.4` on the three-tier
controller. -/
theorem threeTier_classification_exclusive_instance :
    tableLookup
      (tableRecord (tableSetDefault [(1, [("00:04", 4)])] 1) 1 "00:02" 2)
      1 "00:04" = some 4 ∧
    (packetInT3 [(1, [("00:04", 4)])]
      (PacketInMsg.mk 1 2 OFP_NO_BUFFER
        (Pkt.mk (some (EthHeader.mk ETH_TYPE_IP "00:02" "00:04"))
          (some (IPv4Header.mk "10.0.0.2" "10.0.0.4"))))).2 =
      [add_flow 1 (OFMatch.matchIP ETH_TYPE_IP "10.0.0.2" "10.0.0.4")
         [OFAction.setQueue 1, OFAction.output 4 none] (some OFP_NO_BUFFER),
       Instr.packetOut OFP_NO_BUFFER 2
         [OFAction.setQueue 1, OFAction.output 4 none]
         (some (Pkt.mk (some (EthHeader.mk ETH_TYPE_IP "00:02" "00:04"))
           (some (IPv4Header.mk "10.0.0.2" "10.0.0.4"))))] :=
  ⟨by decide,
   (threeTier_classification_exclusive [(1, [("00:04", 4)])]
      (PacketInMsg.mk 1 2 OFP_NO_BUFFER
        (Pkt.mk (some (EthHeader.mk ETH_TYPE_IP "00:02" "00:04"))
          (some (IPv4Header.mk "10.0.0.2" "10.0.0.4"))))
      (EthHeader.mk ETH_TYPE_IP "00:02" "00:04")
      (IPv4Header.mk "10.0.0.2" "10.0.0.4") 4
      rfl rfl rfl (by decide) (by decide)).1 rfl rfl rfl⟩

/-! ## C9 helper lemmas -/

/-- One step of the two-tier engine either leaves a lookup unchanged or
records exactly the triple carried by a parseable non-LLDP packet-in. -/
theorem stepT2_lookup (t : MacTable) (e : Event) (d : Nat) (a : String)
    (p : Nat)
    (h : tableLookup (stepT2 t e).1 d a = some p) :
    tableLookup t d a = some p ∨ eventRecords e d a p := by
  cases e with
  | switchReady s => exact Or.inl h
  | packetIn msg =>
      rcases packetInT2_table t msg with ht | ⟨eth, he, hl, ht⟩
      · rw [show (stepT2 t (Event.packetIn msg)).1 = (packetInT2 t msg).1
            from rfl, ht] at h
        exact Or.inl h
      · rw [show (stepT2 t (Event.packetIn msg)).1 = (packetInT2 t msg).1
            from rfl, ht, tableLookup_record] at h
        by_cases hda : d = msg.dpid ∧ a = eth.src
        · rw [if_pos hda] at h
          refine Or.inr ⟨hda.1.symm, ?_, eth, he, hda.2.symm, hl⟩
          exact (Option.some.inj h)
        · rw [if_neg hda, tableLookup_setDefault] at h
          exact Or.inl h

/-- The per-switch key sets of the learning table only grow: a step of the
two-tier engine never removes an entry. -/
theorem stepT2_keys_grow (t : MacTable) (e : Event) (d : Nat) (a : String)
    (h : (tableLookup t d a).isSome = true) :
    (tableLookup (stepT2 t e).1 d a).isSome = true := by
  cases e with
  | switchReady s => exact h
  | packetIn msg =>
      rcases packetInT2_table t msg with ht | ⟨eth, he, hl, ht⟩
      · show (tableLookup (packetInT2 t msg).1 d a).isSome = true
        rw [ht]; exact h
      · show (tableLookup (packetInT2 t msg).1 d a).isSome = true
        rw [ht, tableLookup_record]
        by_cases hda : d = msg.dpid ∧ a = eth.src
        · rw [if_pos hda]; rfl
        · rw [if_neg hda, tableLookup_setDefault]; exact h

/-- One step of the three-tier engine either leaves a lookup unchanged or
records exactly the triple carried by a parseable non-LLDP packet-in. -/
theorem stepT3_lookup (t : MacTable) (e : Event) (d : Nat) (a : String)
    (p : Nat)
    (h : tableLookup (stepT3 t e).1 d a = some p) :
    tableLookup t d a = some p ∨ eventRecords e d a p := by
  cases e with
  | switchReady s => exact Or.inl h
  | packetIn msg =>
      rcases packetInT3_table t msg with ht | ⟨eth, he, hl, ht⟩
      · rw [show (stepT3 t (Event.packetIn msg)).1 = (packetInT3 t msg).1
            from rfl, ht] at h
        exact Or.inl h
      · rw [show (stepT3 t (Event.packetIn msg)).1 = (packetInT3 t msg).1
            from rfl, ht, tableLookup_record] at h
        by_cases hda : d = msg.dpid ∧ a = eth.src
        · rw [if_pos hda] at h
          refine Or.inr ⟨hda.1.symm, ?_, eth, he, hda.2.symm, hl⟩
          exact (Option.some.inj h)
        · rw [if_neg hda, tableLookup_setDefault] at h
          exact Or.inl h

/-- The per-switch key sets only grow under the three-tier engine. -/
theorem stepT3_keys_grow (t : MacTable) (e : Event) (d : Nat) (a : String)
    (h : (tableLookup t d a).isSome = true) :
    (tableLookup (stepT3 t e).1 d a).isSome = true := by
  cases e with
  | switchReady s => exact h
  | packetIn msg =>
      rcases packetInT3_table t msg with ht | ⟨eth, he, hl, ht⟩
      · show (tableLookup (packetInT3 t msg).1 d a).isSome = true
        rw [ht]; exact h
      · show (tableLookup (packetInT3 t msg).1 d a).isSome = true
        rw [ht, tableLookup_record]
        by_cases hda : d = msg.dpid ∧ a = eth.src
        · rw [if_pos hda]; rfl
        · rw [if_neg hda, tableLookup_setDefault]; exact h

/-- One step of the plain engine either leaves a lookup unchanged or
records exactly the triple carried by a parseable non-LLDP packet-in. -/
theorem stepT45_lookup (t : MacTable) (e : Event) (d : Nat) (a : String)
    (p : Nat)
    (h : tableLookup (stepT45 t e).1 d a = some p) :
    tableLookup t d a = some p ∨ eventRecords e d a p := by
  cases e with
  | switchReady s => exact Or.inl h
  | packetIn msg =>
      rcases packetInT45_table t msg with ht | ⟨eth, he, hl, ht⟩
      · rw [show (stepT45 t (Event.packetIn msg)).1 = (packetInT45 t msg).1
            from rfl, ht] at h
        exact Or.inl h
      · rw [show (stepT45 t (Event.packetIn msg)).1 = (packetInT45 t msg).1
            from rfl, ht, tableLookup_record] at h
        by_cases hda : d = msg.dpid ∧ a = eth.src
        · rw [if_pos hda] at h
          refine Or.inr ⟨hda.1.symm, ?_, eth, he, hda.2.symm, hl⟩
          exact (Option.some.inj h)
        · rw [if_neg hda, tableLookup_setDefault] at h
          exact Or.inl h

/-- The per-switch key sets only grow under the plain engine. -/
theorem stepT45_keys_grow (t : MacTable) (e : Event) (d : Nat) (a : String)
    (h : (tableLookup t d a).isSome = true) :
    (tableLookup (stepT45 t e).1 d a).isSome = true := by
  cases e with
  | switchReady s => exact h
  | packetIn msg =>
      rcases packetInT45_table t msg with ht | ⟨eth, he, hl, ht⟩
      · show (tableLookup (packetInT45 t msg).1 d a).isSome = true
        rw [ht]; exact h
      · show (tableLookup (packetInT45 t msg).1 d a).isSome = true
        rw [ht, tableLookup_record]
        by_cases hda : d = msg.dpid ∧ a = eth.src
        · rw [if_pos hda]; rfl
        · rw [if_neg hda, tableLookup_setDefault]; exact h

/-- Provenance over a two-tier run: every entry of the final table either
predates the run or was recorded by some packet-in event of the run. -/
theorem runT2_lookup (evs : List Event) (t : MacTable) (d : Nat)
    (a : String) (p : Nat)
    (h : tableLookup (runT2 t evs) d a = some p) :
    tableLookup t d a = some p ∨ ∃ e, e ∈ evs ∧ eventRecords e d a p := by
  induction evs generalizing t with
  | nil => exact Or.inl h
  | cons e es ih =>
      rcases ih (stepT2 t e).1 h with h' | ⟨e', he', hr⟩
      · rcases stepT2_lookup t e d a p h' with h'' | hr
        · exact Or.inl h''
        · exact Or.inr ⟨e, List.mem_cons_self e es, hr⟩
      · exact Or.inr ⟨e', List.mem_cons_of_mem e he', hr⟩

/-- Provenance over a three-tier run. -/
theorem runT3_lookup (evs : List Event) (t : MacTable) (d : Nat)
    (a : String) (p : Nat)
    (h : tableLookup (runT3 t evs) d a = some p) :
    tableLookup t d a = some p ∨ ∃ e, e ∈ evs ∧ eventRecords e d a p := by
  induction evs generalizing t with
  | nil => exact Or.inl h
  | cons e es ih =>
      rcases ih (stepT3 t e).1 h with h' | ⟨e', he', hr⟩
      · rcases stepT3_lookup t e d a p h' with h'' | hr
        · exact Or.inl h''
        · exact Or.inr ⟨e, List.mem_cons_self e es, hr⟩
      · exact Or.inr ⟨e', List.mem_cons_of_mem e he', hr⟩

/-- Provenance over a plain-engine run. -/
theorem runT45_lookup (evs : List Event) (t : MacTable) (d : Nat)
    (a : String) (p : Nat)
    (h : tableLookup (runT45 t evs) d a = some p) :
    tableLookup t d a = some p ∨ ∃ e, e ∈ evs ∧ eventRecords e d a p := by
  induction evs generalizing t with
  | nil => exact Or.inl h
  | cons e es ih =>
      rcases ih (stepT45 t e).1 h with h' | ⟨e', he', hr⟩
      · rcases stepT45_lookup t e d a p h' with h'' | hr
        · exact Or.inl h''
        · exact Or.inr ⟨e, List.mem_cons_self e es, hr⟩
      · exact Or.inr ⟨e', List.mem_cons_of_mem e he', hr⟩

/-- C9: for every controller variant, starting from the empty table, a
learning-table entry `(switchId, hostAddress) → port` exists only if some
earlier non-LLDP packet-in on that switch carried that host address as
its source on that ingress port; and no event ever removes an entry —
the set of keys per switch only grows. -/
theorem learning_entry_provenance_and_growth :
    ((∀ (evs : List Event) (d : Nat) (a : String) (p : Nat),
        tableLookup (runT2 [] evs) d a = some p →
        ∃ e, e ∈ evs ∧ eventRecords e d a p) ∧
     (∀ (t : MacTable) (e : Event) (d : Nat) (a : String),
        (tableLookup t d a).isSome = true →
        (tableLookup (stepT2 t e).1 d a).isSome = true)) ∧
    ((∀ (evs : List Event) (d : Nat) (a : String) (p : Nat),
        tableLookup (runT3 [] evs) d a = some p →
        ∃ e, e ∈ evs ∧ eventRecords e d a p) ∧
     (∀ (t : MacTable) (e : Event) (d : Nat) (a : String),
        (tableLookup t d a).isSome = true →
        (tableLookup (stepT3 t e).1 d a).isSome = true)) ∧
    ((∀ (evs : List Event) (d : Nat) (a : String) (p : Nat),
        tableLookup (runT45 [] evs) d a = some p →
        ∃ e, e ∈ evs ∧ eventRecords e d a p) ∧
     (∀ (t : MacTable) (e : Event) (d : Nat) (a : String),
        (tableLookup t d a).isSome = true →
        (tableLookup (stepT45 t e).1 d a).isSome = true)) := by
  refine ⟨⟨?_, fun t e d a h => stepT2_keys_grow t e d a h⟩,
    ⟨?_, fun t e d a h => stepT3_keys_grow t e d a h⟩,
    ⟨?_, fun t e d a h => stepT45_keys_grow t e d a h⟩⟩
  · intro evs d a p h
    rcases runT2_lookup evs [] d a p h with h' | h'
    · exact absurd h' (by simp [tableLookup, tableFind])
    · exact h'
  · intro evs d a p h
    rcases runT3_lookup evs [] d a p h with h' | h'
    · exact absurd h' (by simp [tableLookup, tableFind])
    · exact h'
  · intro evs d a p h
    rcases runT45_lookup evs [] d a p h with h' | h'
    · exact absurd h' (by simp [tableLookup, tableFind])
    · exact h'

/-- C9 witness: after one concrete packet-in, the sole table entry of each
variant's run is traced back to that event. -/
theorem learning_entry_provenance_and_growth_instance :
    (tableLookup
       (runT2 [] [Event.packetIn (PacketInMsg.mk 1 2 OFP_NO_BUFFER
         (Pkt.mk (some (EthHeader.mk 0x0806 "00:aa" "00:bb")) none))])
       1 "00:aa" = some 2 ∧
     ∃ e, e ∈ [Event.packetIn (PacketInMsg.mk 1 2 OFP_NO_BUFFER
         (Pkt.mk (some (EthHeader.mk 0x0806 "00:aa" "00:bb")) none))] ∧
       eventRecords e 1 "00:aa" 2) ∧
    (tableLookup
       (runT3 [] [Event.packetIn (PacketInMsg.mk 1 2 OFP_NO_BUFFER
         (Pkt.mk (some (EthHeader.mk 0x0806 "00:aa" "00:bb")) none))])
       1 "00:aa" = some 2 ∧
     ∃ e, e ∈ [Event.packetIn (PacketInMsg.mk 1 2 OFP_NO_BUFFER
         (Pkt.mk (some (EthHeader.mk 0x0806 "00:aa" "00:bb")) none))] ∧
       eventRecords e 1 "00:aa" 2) ∧
    (tableLookup
       (runT45 [] [Event.packetIn (PacketInMsg.mk 1 2 OFP_NO_BUFFER
         (Pkt.mk (some (EthHeader.mk 0x0806 "00:aa" "00:bb")) none))])
       1 "00:aa" = some 2 ∧
     ∃ e, e ∈ [Event.packetIn (PacketInMsg.mk 1 2 OFP_NO_BUFFER
         (Pkt.mk (some (EthHeader.mk 0x0806 "00:aa" "00:bb")) none))] ∧
       eventRecords e 1 "00:aa" 2) :=
  ⟨⟨by decide,
    learning_entry_provenance_and_growth.1.1
      [Event.packetIn (PacketInMsg.mk 1 2 OFP_NO_BUFFER
        (Pkt.mk (some (EthHeader.mk 0x0806 "00:aa" "00:bb")) none))]
      1 "00:aa" 2 (by decide)⟩,
   ⟨by decide,
    learning_entry_provenance_and_growth.2.1.1
      [Event.packetIn (PacketInMsg.mk 1 2 OFP_NO_BUFFER
        (Pkt.mk (some (EthHeader.mk 0x0806 "00:aa" "00:bb")) none))]
      1 "00:aa" 2 (by decide)⟩,
   ⟨by decide,
    learning_entry_provenance_and_growth.2.2.1
      [Event.packetIn (PacketInMsg.mk 1 2 OFP_NO_BUFFER
        (Pkt.mk (some (EthHeader.mk 0x0806 "00:aa" "00:bb")) none))]
      1 "00:aa" 2 (by decide)⟩⟩
